import Mathlib

/-!
Verification of the SWIFT Alliance message converter and validator.

The repository contains two presentation layers (`swift_alliance_gui.py`, a
PyQt application, and `swift_alliance_streamlit.py`, a Streamlit application)
which call into a core codec/validator subsystem (`swift_messages.py`,
`swift_iso_validator.py`, `config_manager.py`).  The core modules are not part
of the available sources, so the core is modelled from the specification
(definitions carrying a `Modelled from the spec:` doc comment), while the two
presentation layers are embedded directly from their Python sources.
-/

set_option maxRecDepth 20000

namespace SwiftVer

/-! ## Character and list utilities -/

/-- Boolean test that the first character list is a prefix of the second. -/
def listLeads : List Char → List Char → Bool
  | [], _ => true
  | _ :: _, [] => false
  | a :: as, b :: bs => a == b && listLeads as bs

/-- Boolean test that string `t` starts string `l`. -/
def strStarts (t l : String) : Bool :=
  listLeads t.toList l.toList

/-- Two character lists conflict when they differ at some common position. -/
def conflicts : List Char → List Char → Bool
  | x :: xs, y :: ys => x != y || conflicts xs ys
  | _, _ => false

/-- Uppercase ASCII letter test. -/
def upperAlpha (c : Char) : Bool :=
  'A' ≤ c && c ≤ 'Z'

/-- Uppercase alphanumeric test. -/
def alnumUpper (c : Char) : Bool :=
  upperAlpha c || c.isDigit

/-- Characters allowed in display strings (names, remittance text,
references): letters, digits, space and basic punctuation.  A display string
never contains a colon or a line break, so no physical line produced from it
can start an MT tag. -/
def displayChar (c : Char) : Bool :=
  c.isAlpha || c.isDigit || c == ' ' || c == '/' || c == '-' || c == '.' ||
  c == ',' || c == '(' || c == ')' || c == '+' || c == '?'

/-- Non-empty string made of display characters. -/
def displayString (s : String) : Bool :=
  !s.toList.isEmpty && s.toList.all displayChar

/-- Whitespace characters removed by Python `str.strip`. -/
def pyWS (c : Char) : Bool :=
  c == ' ' || c == '\t' || c == '\n' || c == '\r'

/-- Model of Python `str.strip()`: remove leading and trailing whitespace. -/
def pyStrip (s : String) : String :=
  String.mk (((s.toList.dropWhile pyWS).reverse.dropWhile pyWS).reverse)

/-- Uppercase a single ASCII character. -/
def charUp (c : Char) : Char :=
  if 'a' ≤ c ∧ c ≤ 'z' then Char.ofNat (c.toNat - 32) else c

/-- Uppercase an ASCII string. -/
def strUp (s : String) : String :=
  String.mk (s.toList.map charUp)

/-- Decimal digits of `n`, most significant first, via explicit fuel so that
the function is structurally recursive and evaluates inside the kernel. -/
def natToDigitsAux : Nat → Nat → List Char
  | 0, _ => []
  | fuel + 1, n =>
    if n < 10 then [Nat.digitChar n]
    else natToDigitsAux fuel (n / 10) ++ [Nat.digitChar (n % 10)]

/-- Decimal digit characters of a natural number, most significant first. -/
def natToDigits (n : Nat) : List Char :=
  natToDigitsAux (n + 1) n

/-- Numeric value of a list of decimal digit characters. -/
def natOfDigits (cs : List Char) : Nat :=
  cs.foldl (fun a c => a * 10 + (c.toNat - 48)) 0

/-- Two low-order decimal digits of `n` as characters (zero padded). -/
def pad2 (n : Nat) : List Char :=
  [Nat.digitChar (n / 10 % 10), Nat.digitChar (n % 10)]

/-- Four low-order decimal digits of `n` as characters (zero padded). -/
def pad4 (n : Nat) : List Char :=
  pad2 (n / 100) ++ pad2 n

/-! ## Payment data model

Modelled from the spec: the `Payment` value built by the Payment Model in
`swift_messages.py`, which is not among the available sources (spec section 3).
The exact decimal amount is represented as an integer part together with the
exact list of fractional digits, so no binary floating point is involved. -/

/-- Calendar date (year, month, day). -/
structure Date where
  year : Nat
  month : Nat
  day : Nat
deriving DecidableEq, Repr

/-- Exact decimal amount: integer part and exact fractional digits. -/
structure Amount where
  units : Nat
  frac : List Nat
deriving DecidableEq, Repr

/-- Modelled from the spec: the immutable `Payment` value (spec section 3). -/
structure Payment where
  ordering_account : String
  ordering_name : String
  beneficiary_account : String
  beneficiary_name : String
  beneficiary_bic : Option String
  amount : Amount
  currency : String
  value_date : Date
  remittance_info : Option String
  reference : String
deriving DecidableEq, Repr

/-- IBAN-shaped identifier: two uppercase letters (country code), two digits
(check digits), uppercase alphanumeric national part, at most 34 characters
in total (spec section 3 and glossary). -/
def ibanShaped (s : String) : Bool :=
  decide (4 ≤ s.toList.length) && decide (s.toList.length ≤ 34) &&
  (s.toList.take 2).all upperAlpha &&
  ((s.toList.drop 2).take 2).all (fun c => c.isDigit) &&
  s.toList.all alnumUpper

/-- BIC shape: 8 or 11 characters, first six uppercase letters, remainder
uppercase alphanumeric (spec section 3). -/
def bicShape (s : String) : Bool :=
  (s.toList.length == 8 || s.toList.length == 11) &&
  (s.toList.take 6).all upperAlpha && s.toList.all alnumUpper

/-- Currency shape: exactly three uppercase letters. -/
def currencyOK (s : String) : Bool :=
  s.toList.length == 3 && s.toList.all upperAlpha

/-- Date sanity: month in 1..12, day in 1..31. -/
def dateOK (d : Date) : Bool :=
  decide (1 ≤ d.month) && decide (d.month ≤ 12) &&
  decide (1 ≤ d.day) && decide (d.day ≤ 31)

/-- Amount sanity: every fractional digit is a digit and the value is
strictly positive. -/
def amountOK (a : Amount) : Bool :=
  a.frac.all (fun d => decide (d < 10)) &&
  (decide (0 < a.units) || a.frac.any (fun d => d != 0))

/-- Validity of a `Payment` value, exactly the conditions the Payment Model
builder establishes (spec sections 3 and 4.1). -/
def validPayment (p : Payment) : Bool :=
  ibanShaped p.ordering_account && displayString p.ordering_name &&
  ibanShaped p.beneficiary_account && displayString p.beneficiary_name &&
  (match p.beneficiary_bic with
   | none => true
   | some b => bicShape b) &&
  amountOK p.amount && currencyOK p.currency && dateOK p.value_date &&
  (match p.remittance_info with
   | none => true
   | some r => displayString r) &&
  displayString p.reference

/-! ## MT103 generator

Modelled from the spec: `generate_mt103` of `swift_messages.py` (not among the
available sources), following spec section 4.2.  The text block is embedded as
its list of physical lines.  Content of the wrapped fields (`:50K:`, `:59:`,
`:70:`) is placed on lines of its own after the tag line: the account line is
the ordering account prefixed with `/` on its own line, names and remittance
text are wrapped into chunks of at most 35 characters, at most 4 lines, the
remainder being truncated. -/

/-- Split a character list into chunks of at most 35 characters, by fuel so
that the function evaluates in the kernel. -/
def chunk35Aux : Nat → List Char → List (List Char)
  | 0, _ => []
  | _, [] => []
  | fuel + 1, cs => cs.take 35 :: chunk35Aux fuel (cs.drop 35)

/-- Chunks of at most 35 characters covering `cs` in order. -/
def chunk35 (cs : List Char) : List (List Char) :=
  chunk35Aux cs.length cs

/-- Wrap a text field into lines of at most 35 characters, at most 4 lines
(overflow truncated), per spec section 4.2. -/
def wrapField (s : String) : List String :=
  ((chunk35 s.toList).take 4).map (fun cs => String.mk cs)

/-- Value date rendered as the six digits `YYMMDD`. -/
def yymmdd (d : Date) : List Char :=
  pad2 (d.year % 100) ++ pad2 d.month ++ pad2 d.day

/-- Fractional digits padded with trailing zeros to at least two digits. -/
def fracPadded (a : Amount) : List Nat :=
  a.frac ++ List.replicate (2 - a.frac.length) 0

/-- MT amount rendering: comma as fractional separator, no thousands
separator, at least two fractional digits. -/
def mtAmount (a : Amount) : String :=
  String.mk (natToDigits a.units ++ ',' :: (fracPadded a).map Nat.digitChar)

/-- Modelled from the spec: the MT103 generator (spec section 4.2), producing
the physical lines of the text block. -/
def generate_mt103 (p : Payment) : List String :=
  [":20:" ++ p.reference,
   ":23B:CRED",
   ":32A:" ++ String.mk (yymmdd p.value_date) ++ p.currency ++ mtAmount p.amount,
   ":50K:",
   "/" ++ p.ordering_account] ++
  wrapField p.ordering_name ++
  [":59:"] ++
  (match p.beneficiary_bic with
   | some b => [b]
   | none => []) ++
  ["/" ++ p.beneficiary_account] ++
  wrapField p.beneficiary_name ++
  (match p.remittance_info with
   | none => []
   | some r => ":70:" :: wrapField r) ++
  [":71A:OUR"]

/-! ## MT103 validator

Modelled from the spec: `validate_mt103_text` of `swift_iso_validator.py`
(not among the available sources), following spec section 4.4.  It operates on
the physical lines of the message and returns the pair of the validity flag
and the ordered issue list; validity is true iff the issue list is empty. -/

/-- All MT103 tags, in the fixed order of spec section 4.2. -/
def mt103Tags : List String :=
  [":20:", ":23B:", ":32A:", ":50K:", ":59:", ":70:", ":71A:"]

/-- Mandatory MT103 tags (`:70:` is optional). -/
def mandatoryTags : List String :=
  [":20:", ":23B:", ":32A:", ":50K:", ":59:", ":71A:"]

/-- The wrapped fields, whose physical lines are limited to 35 characters. -/
def wrappedTags : List String :=
  [":50K:", ":59:", ":70:"]

/-- The `:70:` tag is present in the tag sequence exactly when remittance
text is present. -/
def opt70 : Option String → List String
  | none => []
  | some _ => [":70:"]

/-- The tag starting a physical line, if any. -/
def tagOf (l : String) : Option String :=
  mt103Tags.find? (fun t => strStarts t l)

/-- A line whose first character is not a colon (or an empty line); such a
line starts no tag. -/
def headNotColon (l : String) : Bool :=
  match l.toList with
  | [] => true
  | c :: _ => c != ':'

/-- Check the amount part of a `:32A:` value: one or more digits, a comma,
one or more digits. -/
def checkAmt (cs : List Char) : Bool :=
  let ip := cs.takeWhile (fun c => c.isDigit)
  let rest := cs.dropWhile (fun c => c.isDigit)
  !ip.isEmpty &&
  (match rest with
   | c :: fr => c == ',' && !fr.isEmpty && fr.all (fun d => d.isDigit)
   | [] => false)

/-- Check a `:32A:` value: six digits, three uppercase letters, then a
comma-separated numeric amount (spec section 4.4). -/
def check32A : List Char → Bool
  | d1 :: d2 :: d3 :: d4 :: d5 :: d6 :: u1 :: u2 :: u3 :: rest =>
    d1.isDigit && d2.isDigit && d3.isDigit && d4.isDigit && d5.isDigit &&
    d6.isDigit && upperAlpha u1 && upperAlpha u2 && upperAlpha u3 &&
    checkAmt rest
  | _ => false

/-- Issue text for an over-long line of a wrapped field. -/
def lineTooLongMsg (t : String) : String :=
  "line longer than 35 characters in wrapped field " ++ t

/-- Collect the over-long-line issues of the wrapped fields, walking the
lines while remembering the tag of the field the current line belongs to. -/
def wrapIssues : Option String → List String → List String
  | _, [] => []
  | cur, l :: ls =>
    match tagOf l with
    | some t =>
      (if wrappedTags.contains t && decide (35 < l.length)
       then [lineTooLongMsg t] else []) ++ wrapIssues (some t) ls
    | none =>
      (match cur with
       | some t =>
         if wrappedTags.contains t && decide (35 < l.length)
         then [lineTooLongMsg t] else []
       | none => []) ++ wrapIssues cur ls

/-- Boolean test that the first list is an ordered subsequence of the
second. -/
def isOrderedSub : List String → List String → Bool
  | [], _ => true
  | _ :: _, [] => false
  | a :: as, b :: bs =>
    if a == b then isOrderedSub as bs else isOrderedSub (a :: as) bs

/-- Modelled from the spec: the MT103 validator (spec section 4.4) on the
physical lines of the message.  Checks run in the order given in the spec:
mandatory-tag presence, `:32A:` format, wrapped-field line length, duplicate
tags, tag order; each issue names the offending tag. -/
def validate_mt103_text (ls : List String) : Bool × List String :=
  let seq := ls.filterMap tagOf
  let missing := (mandatoryTags.filter (fun t => seq.count t == 0)).map
    (fun t => "missing mandatory tag " ++ t)
  let bad32A := ls.filterMap (fun l =>
    if tagOf l == some ":32A:" then
      if check32A (l.toList.drop 5) then none
      else some "malformed :32A: value"
    else none)
  let longLines := wrapIssues none ls
  let dups := (mt103Tags.filter (fun t => decide (2 ≤ seq.count t))).map
    (fun t => "tag " ++ t ++ " appears more than once")
  let ord := if isOrderedSub seq mt103Tags then []
    else ["tags out of the required order"]
  let issues := missing ++ bad32A ++ longLines ++ dups ++ ord
  (issues.isEmpty, issues)

/-! ## pain.001 generator

Modelled from the spec: `generate_pain001` of `swift_messages.py` (not among
the available sources), following spec section 4.3.  The creation timestamp is
the one field expected to vary between calls; it is modelled as a fixed
constant, and no claim depends on its value. -/

/-- Replacement for one character under XML escaping of the five reserved
characters. -/
def escChar : Char → List Char
  | '&' => "&amp;".toList
  | '<' => "&lt;".toList
  | '>' => "&gt;".toList
  | '"' => "&quot;".toList
  | '\'' => "&apos;".toList
  | c => [c]

/-- Escape the five reserved XML characters in a string. -/
def xmlEscape (s : String) : String :=
  String.mk (s.toList.foldr (fun c acc => escChar c ++ acc) [])

/-- Amount for pain.001: decimal point, exactly two fractional digits. -/
def painAmount (a : Amount) : String :=
  String.mk (natToDigits a.units ++ '.' :: ((fracPadded a).take 2).map Nat.digitChar)

/-- ISO rendering `YYYY-MM-DD` of a date. -/
def isoDate (d : Date) : String :=
  String.mk (pad4 d.year ++ '-' :: pad2 d.month ++ '-' :: pad2 d.day)

/-- Modelled from the spec: the fixed creation timestamp constant standing in
for the one non-deterministic field of the pain.001 output. -/
def creationTimestamp : String := "2024-01-01T00:00:00"

/-- Modelled from the spec: the pain.001 generator (spec section 4.3). -/
def generate_pain001 (p : Payment) : String :=
  "<?xml version=\"1.0\" encoding=\"UTF-8\"?>\n" ++
  "<Document>\n<CstmrCdtTrfInitn>\n<GrpHdr>\n" ++
  "<MsgId>" ++ xmlEscape p.reference ++ "-MSG</MsgId>\n" ++
  "<CreDtTm>" ++ creationTimestamp ++ "</CreDtTm>\n" ++
  "<NbOfTxs>1</NbOfTxs>\n" ++
  "<CtrlSum>" ++ painAmount p.amount ++ "</CtrlSum>\n" ++
  "<InitgPty><Nm>" ++ xmlEscape p.ordering_name ++ "</Nm></InitgPty>\n" ++
  "</GrpHdr>\n<PmtInf>\n" ++
  "<PmtInfId>" ++ xmlEscape p.reference ++ "-PMT</PmtInfId>\n" ++
  "<PmtMtd>TRF</PmtMtd>\n" ++
  "<ReqdExctnDt>" ++ isoDate p.value_date ++ "</ReqdExctnDt>\n" ++
  "<Dbtr><Nm>" ++ xmlEscape p.ordering_name ++ "</Nm></Dbtr>\n" ++
  "<DbtrAcct><Id><IBAN>" ++ xmlEscape p.ordering_account ++
  "</IBAN></Id></DbtrAcct>\n" ++
  "<CdtTrfTxInf>\n" ++
  "<PmtId><EndToEndId>" ++ xmlEscape p.reference ++ "</EndToEndId></PmtId>\n" ++
  "<Amt><InstdAmt Ccy=\"" ++ xmlEscape p.currency ++ "\">" ++
  painAmount p.amount ++ "</InstdAmt></Amt>\n" ++
  (match p.beneficiary_bic with
   | some b =>
     "<CdtrAgt><FinInstnId><BIC>" ++ xmlEscape b ++
     "</BIC></FinInstnId></CdtrAgt>\n"
   | none => "") ++
  "<Cdtr><Nm>" ++ xmlEscape p.beneficiary_name ++ "</Nm></Cdtr>\n" ++
  "<CdtrAcct><Id><IBAN>" ++ xmlEscape p.beneficiary_account ++
  "</IBAN></Id></CdtrAcct>\n" ++
  (match p.remittance_info with
   | some r => "<RmtInf><Ustrd>" ++ xmlEscape r ++ "</Ustrd></RmtInf>\n"
   | none => "") ++
  "</CdtTrfTxInf>\n</PmtInf>\n</CstmrCdtTrfInitn>\n</Document>"

/-- Occurrence of `pat` as an infix of `s`, scanning positions. -/
def infixCheck (pat : List Char) : List Char → Bool
  | [] => pat.isEmpty
  | c :: rest => listLeads pat (c :: rest) || infixCheck pat rest

/-- Boolean substring containment for strings. -/
def strContains (s pat : String) : Bool :=
  infixCheck pat.toList s.toList

/-! ## pain.001 validator

Modelled from the spec: `validate_pain001_generated` of
`swift_iso_validator.py` (not among the available sources), following spec
section 4.5.  The schema store is modelled as a lookup from the schema path to
the schema, itself modelled as a checker returning the ordered list of schema
violations of a document.  The schema reference, when supplied, is resolved
(located and read) before anything else, so an unusable reference raises
`SchemaNotFoundError` for every input document; the two validation stages
(XML parse, then schema validation) then run on the document. -/

/-- Infrastructure error for a schema path that cannot be located or read. -/
structure SchemaNotFoundError where
  message : String
deriving DecidableEq, Repr

/-- Modelled from the spec: the simplified stage-1 well-formedness check of
the XML parse — angle brackets must alternate properly. -/
def angleBalanced : List Char → Bool → Bool
  | [], inside => !inside
  | c :: rest, inside =>
    if c == '<' then (if inside then false else angleBalanced rest true)
    else if c == '>' then (if inside then angleBalanced rest false else false)
    else angleBalanced rest inside

/-- Stage-1 XML parse check on a document. -/
def xmlWellFormed (xml : String) : Bool :=
  angleBalanced xml.toList false

/-- Modelled from the spec: the pain.001 validator (spec section 4.5).
`store` models the schema store of the file system; a path it cannot resolve
raises `SchemaNotFoundError`, returned through `Except`. -/
def validate_pain001_generated (store : String → Option (String → List String))
    (xml : String) (schemaPath : String) :
    Except SchemaNotFoundError (Bool × List String) :=
  match store schemaPath with
  | none =>
    .error { message := "pain.001 schema not found or unreadable: " ++ schemaPath }
  | some schemaCheck =>
    if xmlWellFormed xml then
      let issues := schemaCheck xml
      .ok (issues.isEmpty, issues)
    else
      .ok (false, ["XML parse error: document is not well-formed"])

/-! ## Payment Model builder

Modelled from the spec: `payment_from_transaction` of `swift_messages.py`
(not among the available sources), following spec section 4.1: raw field
values in, validated `Payment` out, or `InputError` naming the offending
field, with nothing partially constructed.  Validation order: account fields
non-empty, amount parses as a positive exact decimal, currency normalizes to
three uppercase letters (default applied if blank), value date parses
(default applied if blank), beneficiary BIC shape if given.  The generated
default reference and the default value date (today) are the two
environment-derived defaults; they are modelled as constants. -/

/-- Error raised by the Payment Model for a malformed or missing field. -/
inductive InputError where
  | emptyField (field : String)
  | badAmount (raw : String)
  | badCurrency (raw : String)
  | badDate (raw : String)
  | badBic (raw : String)
deriving DecidableEq, Repr

/-- Decidable equality for `Except`, used to evaluate builder and validator
results on concrete inputs. -/
instance {α β : Type} [DecidableEq α] [DecidableEq β] :
    DecidableEq (Except α β) := fun x y =>
  match x, y with
  | .ok a, .ok b =>
    match decEq a b with
    | isTrue h => isTrue (by rw [h])
    | isFalse h => isFalse (fun e => h (Except.ok.inj e))
  | .ok _, .error _ => isFalse (fun e => Except.noConfusion e)
  | .error _, .ok _ => isFalse (fun e => Except.noConfusion e)
  | .error a, .error b =>
    match decEq a b with
    | isTrue h => isTrue (by rw [h])
    | isFalse h => isFalse (fun e => h (Except.error.inj e))

/-- Parse an unsigned decimal literal: digits with an optional single point.
Returns the integer part and the exact fractional digits. -/
def parseUnsigned (cs : List Char) : Option (Nat × List Nat) :=
  let ip := cs.takeWhile (fun c => c.isDigit)
  let rest := cs.dropWhile (fun c => c.isDigit)
  match rest with
  | [] => if ip.isEmpty then none else some (natOfDigits ip, [])
  | c :: fr =>
    if c == '.' && fr.all (fun d => d.isDigit) && !(ip.isEmpty && fr.isEmpty)
    then some (natOfDigits ip, fr.map (fun d => d.toNat - 48))
    else none

/-- Parse a signed exact decimal string: optional leading minus sign, then an
unsigned decimal.  Returns (negative?, integer part, fractional digits). -/
def parseAmount (s : String) : Option (Bool × Nat × List Nat) :=
  match s.toList with
  | '-' :: rest => (parseUnsigned rest).map (fun uf => (true, uf.1, uf.2))
  | cs => (parseUnsigned cs).map (fun uf => (false, uf.1, uf.2))

/-- Split a character list at `-` separators. -/
def splitDash (cs : List Char) : List (List Char) :=
  cs.foldr
    (fun c acc =>
      if c == '-' then [] :: acc
      else match acc with
        | [] => [[c]]
        | g :: gs => (c :: g) :: gs)
    [[]]

/-- Parse an ISO `YYYY-MM-DD` date string with range checks. -/
def parseDate (s : String) : Option Date :=
  match splitDash s.toList with
  | [ys, ms, ds] =>
    if !ys.isEmpty && !ms.isEmpty && !ds.isEmpty &&
       ys.all (fun c => c.isDigit) && ms.all (fun c => c.isDigit) &&
       ds.all (fun c => c.isDigit) then
      let d : Date :=
        { year := natOfDigits ys, month := natOfDigits ms, day := natOfDigits ds }
      if dateOK d then some d else none
    else none
  | _ => none

/-- Modelled from the spec: value date used when the field is blank (today;
a constant in the model). -/
def defaultValueDate : Date := { year := 2024, month := 1, day := 1 }

/-- Modelled from the spec: the generated unique default reference (the one
non-pure default of the builder; a constant in the model). -/
def generatedReference : String := "GENREF0001"

/-- Modelled from the spec: the Payment Model builder (spec section 4.1). -/
def payment_from_transaction (account_number account_name beneficiary_account
    beneficiary_name : String) (amount : String) (currency : String)
    (value_date : Option String) (remittance_info : Option String)
    (beneficiary_bic : Option String) (reference : Option String) :
    Except InputError Payment :=
  if pyStrip account_number = "" then .error (.emptyField "ordering_account")
  else if pyStrip account_name = "" then .error (.emptyField "ordering_name")
  else if pyStrip beneficiary_account = "" then
    .error (.emptyField "beneficiary_account")
  else if pyStrip beneficiary_name = "" then
    .error (.emptyField "beneficiary_name")
  else
    match parseAmount amount with
    | none => .error (.badAmount amount)
    | some (neg, u, f) =>
      if neg || (u == 0 && f.all (fun d => d == 0)) then
        .error (.badAmount amount)
      else
        let cur := strUp (if pyStrip currency = "" then "USD" else pyStrip currency)
        if !currencyOK cur then .error (.badCurrency currency)
        else
          let dres : Except InputError Date :=
            match value_date with
            | none => .ok defaultValueDate
            | some ds =>
              if pyStrip ds = "" then .ok defaultValueDate
              else
                match parseDate (pyStrip ds) with
                | none => .error (.badDate ds)
                | some d => .ok d
          match dres with
          | .error e => .error e
          | .ok dt =>
            let bres : Except InputError (Option String) :=
              match beneficiary_bic with
              | none => .ok none
              | some b =>
                if bicShape (strUp (pyStrip b)) then .ok (some (strUp (pyStrip b)))
                else .error (.badBic b)
            match bres with
            | .error e => .error e
            | .ok bic =>
              .ok
                { ordering_account := account_number
                  ordering_name := account_name
                  beneficiary_account := beneficiary_account
                  beneficiary_name := beneficiary_name
                  beneficiary_bic := bic
                  amount := { units := u, frac := f }
                  currency := cur
                  value_date := dt
                  remittance_info := remittance_info
                  reference := (reference.getD generatedReference) }

/-! ## PyQt GUI model

Embedded from `src/swift_alliance_gui.py`.  The user-interface state that the
claims depend on is the schema path, the stored validation result, the
preview text and the two validation display widgets; dialog answers and
validator outcomes are passed in as environment values. -/

/-- A validation result as the GUIs store it: valid flag plus error list. -/
abbrev ValidationResult := Bool × List String

/-- Outcome of a call to the pain.001 validator as seen by a caller: either a
returned result or a raised `SchemaNotFoundError`. -/
inductive XmlValidateOutcome where
  | ok (valid : Bool) (errors : List String)
  | schemaError (msg : String)
deriving DecidableEq, Repr

/-- State of `SwiftGUI` relevant to the claims (fields set in `__init__` and
`_build_ui`, lines 43-44, 152-167). -/
structure QtState where
  schema_path : Option String
  last_validation_result : ValidationResult
  preview : String
  validation_status_label : String
  validation_list : String
deriving DecidableEq, Repr

/-- Issue list rendering of `_set_validation_result` (lines 284-289):
numbered lines `i. e`. -/
def numberIssuesAux : Nat → List String → String
  | _, [] => ""
  | i, e :: es =>
    String.mk (natToDigits i) ++ ". " ++ e ++ "\n" ++ numberIssuesAux (i + 1) es

/-- Embeds `SwiftGUI._set_validation_result` (lines 274-290). -/
def set_validation_result (s : QtState) (valid : Bool) (errors : List String) :
    QtState :=
  { s with
    last_validation_result := (valid, errors)
    validation_status_label :=
      if valid then "Validation status: VALID" else "Validation status: INVALID"
    validation_list :=
      if valid then "No validation issues found."
      else if errors.isEmpty then "Unknown validation failure."
      else numberIssuesAux 1 errors }

/-- Embeds the XML branch of `SwiftGUI.on_generate` (lines 236-248): the
preview is set, then if a schema is selected the validator outcome is stored
(a raised schema error is caught by the surrounding handler, which only shows
a message box); with no schema selected, an invalid result with an
explanatory issue is stored. -/
def on_generate_xml (s : QtState) (xml : String) (outcome : XmlValidateOutcome) :
    QtState :=
  let s1 := { s with preview := xml }
  match s1.schema_path with
  | some _ =>
    match outcome with
    | .ok valid errors => set_validation_result s1 valid errors
    | .schemaError _ => s1
  | none =>
    set_validation_result s1 false
      ["No pain.001 XSD selected. Please select an XSD to validate."]

/-- Environment of a `Validate Now` click: chosen format and the validator
outcomes it would observe. -/
structure QtEnv where
  fmt_xml : Bool
  mtOutcome : ValidationResult
  xmlOutcome : XmlValidateOutcome
deriving DecidableEq, Repr

/-- Embeds the first definition of `SwiftGUI.on_validate_clicked`
(lines 252-272): validate the current preview and store the result. -/
def on_validate_clicked_v1 (env : QtEnv) (s : QtState) : QtState :=
  if s.preview = "" then s
  else if !env.fmt_xml then
    set_validation_result s env.mtOutcome.1 env.mtOutcome.2
  else
    match s.schema_path with
    | none => s
    | some _ =>
      match env.xmlOutcome with
      | .ok v e => set_validation_result s v e
      | .schemaError _ => s

/-- Embeds the second definition of `SwiftGUI.on_validate_clicked`
(lines 415-417): a bare `pass`. -/
def on_validate_clicked_v2 (_env : QtEnv) (s : QtState) : QtState := s

/-- Names of the methods of class `SwiftGUI` in source order; the name
`on_validate_clicked` is bound twice (lines 252 and 415). -/
def swiftGUIMethodNames : List String :=
  ["__init__", "_build_ui", "_load_accounts", "on_account_changed",
   "_collect_payment", "on_generate", "on_validate_clicked",
   "_set_validation_result", "on_save", "on_send", "_send_via_smtp",
   "_send_via_sftp", "select_schema_file", "on_validate_clicked",
   "on_load_logo", "_load_logo_preview"]

/-- The two bindings of the name `on_validate_clicked` in the class body, in
source order. -/
def validateClickedBindings : List (String × (QtEnv → QtState → QtState)) :=
  [("on_validate_clicked", on_validate_clicked_v1),
   ("on_validate_clicked", on_validate_clicked_v2)]

/-- Python class-body attribute semantics: the last binding of a name wins. -/
def resolveMethod {α : Type} (table : List (String × α)) (name : String) :
    Option α :=
  ((table.filter (fun e => e.1 == name)).map (fun e => e.2)).getLast?

/-- Send methods offered by `SwiftGUI.on_send` (line 320). -/
inductive QtSendMethod where
  | save
  | smtp
  | sftp
  | mockLog
deriving DecidableEq, Repr

/-- Transport actions `SwiftGUI.on_send` can perform. -/
inductive QtTransport where
  | savedFile (fname : String)
  | smtpSent
  | sftpUploaded
  | mockLogged
deriving DecidableEq, Repr

/-- Environment of a `Send (mock)` click: the override answer, the method
dialog result and the completion of the per-method dialogs. -/
structure QtSendEnv where
  overrideAnswerYes : Bool
  methodChoice : Option QtSendMethod
  saveFileName : Option String
  smtpDialogsCompleted : Bool
  sftpDialogsCompleted : Bool
  hasParamiko : Bool
deriving DecidableEq, Repr

/-- Embeds `SwiftGUI.on_send` (lines 303-345): nothing happens on an empty
preview; on an invalid stored result the override question is asked and a
negative answer returns without any transport; otherwise the chosen transport
runs (each dialog can still be cancelled). -/
def on_send (s : QtState) (env : QtSendEnv) : Option QtTransport :=
  if s.preview = "" then none
  else if !s.last_validation_result.1 && !env.overrideAnswerYes then none
  else
    match env.methodChoice with
    | none => none
    | some .save => env.saveFileName.map (fun f => .savedFile f)
    | some .smtp => if env.smtpDialogsCompleted then some .smtpSent else none
    | some .sftp =>
      if env.hasParamiko && env.sftpDialogsCompleted then some .sftpUploaded
      else none
    | some .mockLog => some .mockLogged

/-- Embeds the currency argument expression of `SwiftGUI._collect_payment`
(line 215) and of `_build_payment_dict` in the Streamlit app (line 171):
`text.strip() or "USD"`. -/
def collectCurrency (raw : String) : String :=
  let s := pyStrip raw
  if s = "" then "USD" else s

/-! ## Streamlit app model

Embedded from `src/swift_alliance_streamlit.py`.  Session state covers the
persisted schema and logo paths, the preview and its format, and the stored
validation result. -/

/-- Message formats of the Streamlit app. -/
inductive Fmt where
  | xml
  | mt
deriving DecidableEq, Repr

/-- Streamlit session state relevant to the claims (lines 44-47, 151-156). -/
structure StState where
  schema_path : Option String
  logo_path : Option String
  preview_content : String
  validation_result : ValidationResult
  last_format : Option Fmt
deriving DecidableEq, Repr

/-- The dictionary written by `config_manager.save_config`: both keys are
always present. -/
structure StConfig where
  schema_path : Option String
  logo_path : Option String
deriving DecidableEq, Repr

/-- Messages displayed by the Streamlit app. -/
inductive StMsg where
  | success (m : String)
  | warning (m : String)
  | errorMsg (m : String)
deriving DecidableEq, Repr

/-- Embeds the `uploaded_xsd` handler (lines 82-92): the uploaded schema is
stored in session state and persisted together with the current logo path. -/
def uploaded_xsd_handler (s : StState) (target : String) : StState × StConfig :=
  let s1 := { s with schema_path := some target }
  (s1, { schema_path := s1.schema_path, logo_path := s.logo_path })

/-- Embeds the persisted-schema selectbox handler (lines 100-103). -/
def schema_selectbox_handler (s : StState) (schemasDir sel : String) :
    StState × StConfig :=
  let s1 := { s with schema_path := some (schemasDir ++ "/" ++ sel) }
  (s1, { schema_path := s1.schema_path, logo_path := s.logo_path })

/-- Embeds the `logo_file` handler (lines 108-114): the uploaded logo is
stored in session state and persisted together with the current schema
path. -/
def logo_upload_handler (s : StState) (target : String) : StState × StConfig :=
  let s1 := { s with logo_path := some target }
  (s1, { schema_path := s.schema_path, logo_path := s1.logo_path })

/-- Embeds the XML part of the `btn_generate` branch (lines 179-203): the
preview and format are stored; with a persisted, existing schema the
validator outcome (or a caught schema error, line 200) is stored; otherwise
an invalid result with an explanatory issue is stored. -/
def btn_generate_xml (s : StState) (xml : String) (pathExists : String → Bool)
    (outcome : XmlValidateOutcome) : StState × List StMsg :=
  let s1 := { s with preview_content := xml, last_format := some Fmt.xml }
  let noSchema : StState × List StMsg :=
    ({ s1 with validation_result := (false, ["No schema uploaded for validation."]) },
     [.success "XML preview generated",
      .warning "No persisted schema selected — upload a pain.001 XSD on the left to enable validation."])
  match s1.schema_path with
  | some sp =>
    if pathExists sp then
      match outcome with
      | .ok v errs =>
        ({ s1 with validation_result := (v, errs) },
         [.success "XML preview generated",
          if v then .success "XML validated: VALID"
          else .errorMsg "XML validation: INVALID — see details below"])
      | .schemaError m =>
        ({ s1 with validation_result := (false, [m]) },
         [.success "XML preview generated", .errorMsg ("Schema error: " ++ m)])
    else noSchema
  | none => noSchema

/-- Embeds the `btn_validate` branch (lines 216-241): an empty preview only
warns; for an XML preview with no persisted or existing schema an error is
displayed and the stored result is left untouched; a raised schema error is
also only displayed (line 233); otherwise the validator outcome is stored. -/
def btn_validate (s : StState) (pathExists : String → Bool)
    (xmlOutcome : XmlValidateOutcome) (mtOutcome : ValidationResult) :
    StState × List StMsg :=
  if s.preview_content = "" then
    (s, [.warning "No preview content to validate. Generate a message first."])
  else if s.last_format == some Fmt.xml then
    let noSchema : StState × List StMsg :=
      (s, [.errorMsg "No persisted schema. Upload a pain.001 XSD on the left to validate XML."])
    match s.schema_path with
    | none => noSchema
    | some sp =>
      if pathExists sp then
        match xmlOutcome with
        | .ok v errs =>
          ({ s with validation_result := (v, errs) },
           [if v then .success "XML validation: VALID"
            else .errorMsg "XML validation: INVALID"])
        | .schemaError m => (s, [.errorMsg ("Schema error: " ++ m)])
      else noSchema
  else
    ({ s with validation_result := mtOutcome },
     [if mtOutcome.1 then .success "MT103 validation: OK"
      else .errorMsg "MT103 validation: issues found"])

/-- Send methods of the Streamlit mock send (line 282). -/
inductive StSendMethod where
  | logLocal
  | smtp
  | sftp
deriving DecidableEq, Repr

/-- Transport actions the Streamlit mock send can perform. -/
inductive StTransport where
  | logged
  | emailSent
  | sftpUploaded
deriving DecidableEq, Repr

/-- Environment of a `btn_send_mock` run: override checkbox, chosen method,
and the nested action buttons. -/
structure StSendEnv where
  overrideChecked : Bool
  method : StSendMethod
  emailNowClicked : Bool
  sftpNowClicked : Bool
  hasParamiko : Bool
deriving DecidableEq, Repr

/-- Embeds the `btn_send_mock` branch (lines 273-330): nothing happens on an
empty preview; on an invalid stored result the script stops unless the
override checkbox is checked; otherwise the chosen transport runs. -/
def btn_send_mock (s : StState) (env : StSendEnv) : Option StTransport :=
  if s.preview_content = "" then none
  else if !s.validation_result.1 && !env.overrideChecked then none
  else
    match env.method with
    | .logLocal => some .logged
    | .smtp => if env.emailNowClicked then some .emailSent else none
    | .sftp =>
      if env.hasParamiko && env.sftpNowClicked then some .sftpUploaded
      else none

/-- The example payment of spec section 8. -/
def examplePayment : Payment :=
  { ordering_account := "DE89370400440532013000"
    ordering_name := "Acme GmbH"
    beneficiary_account := "FR1420041010050500013M02606"
    beneficiary_name := "Globex SA"
    beneficiary_bic := none
    amount := { units := 1234, frac := [5, 6] }
    currency := "EUR"
    value_date := { year := 2024, month := 6, day := 1 }
    remittance_info := some "Invoice 123"
    reference := "REF001" }

/-! ## Lemmas for the MT103 round trip -/

theorem toList_append (a b : String) : (a ++ b).toList = a.toList ++ b.toList :=
  String.data_append a b

theorem listLeads_append_self : ∀ (xs ys : List Char),
    listLeads xs (xs ++ ys) = true
  | [], _ => rfl
  | x :: xs, ys => by simp [listLeads, listLeads_append_self xs ys]

theorem strStarts_self (t r : String) : strStarts t (t ++ r) = true := by
  simp [strStarts, toList_append, listLeads_append_self]

theorem listLeads_of_conflicts : ∀ (xs ys zs : List Char),
    conflicts xs ys = true → listLeads xs (ys ++ zs) = false := by
  intro xs
  induction xs with
  | nil => intro ys zs h; cases ys <;> simp [conflicts] at h
  | cons x xs ih =>
    intro ys zs h
    cases ys with
    | nil => simp [conflicts] at h
    | cons y ys =>
      simp only [conflicts, Bool.or_eq_true] at h
      simp only [List.cons_append, listLeads]
      rcases h with h | h
      · have hxy : (x == y) = false := beq_eq_false_iff_ne.mpr (bne_iff_ne.mp h)
        simp [hxy]
      · simp [List.append_eq, ih ys zs h]

theorem strStarts_clash (t u r : String)
    (h : conflicts t.toList u.toList = true) : strStarts t (u ++ r) = false := by
  simp only [strStarts, toList_append]
  exact listLeads_of_conflicts _ _ _ h

theorem strStarts_clash_ne (t u r : String)
    (h : conflicts t.toList u.toList = true) : ¬ strStarts t (u ++ r) = true := by
  rw [strStarts_clash t u r h]
  exact Bool.false_ne_true

theorem tagOf_ref_line (r : String) : tagOf (":20:" ++ r) = some ":20:" := by
  have h1 : strStarts ":20:" (":20:" ++ r) = true := strStarts_self _ _
  simp [tagOf, mt103Tags, List.find?, h1]

theorem tagOf_32A_line (r : String) : tagOf (":32A:" ++ r) = some ":32A:" := by
  have h1 : strStarts ":20:" (":32A:" ++ r) = false := strStarts_clash _ _ _ (by decide)
  have h2 : strStarts ":23B:" (":32A:" ++ r) = false := strStarts_clash _ _ _ (by decide)
  have h3 : strStarts ":32A:" (":32A:" ++ r) = true := strStarts_self _ _
  simp [tagOf, mt103Tags, List.find?, h1, h2, h3]

theorem tagOf_eq_none (l : String) (h : headNotColon l = true) : tagOf l = none := by
  unfold tagOf
  apply List.find?_eq_none.mpr
  intro t ht
  have hcolon : ∀ (rest : List Char), listLeads (':' :: rest) l.toList = false := by
    intro rest
    unfold headNotColon at h
    cases hl : l.toList with
    | nil => rfl
    | cons c cs =>
      rw [hl] at h
      have hbe : (':' == c) = false :=
        beq_eq_false_iff_ne.mpr (fun e => (bne_iff_ne.mp h) e.symm)
      simp [listLeads, hbe]
  have htag : ∃ rest, t.toList = ':' :: rest := by
    fin_cases ht <;> exact ⟨_, rfl⟩
  obtain ⟨rest, hrest⟩ := htag
  intro hs
  simp only [strStarts, hrest, hcolon rest] at hs
  exact Bool.false_ne_true hs

theorem displayChar_head (c : Char) (h : displayChar c = true) : (c != ':') = true := by
  apply bne_iff_ne.mpr
  intro e
  subst e
  exact absurd h (by decide)

theorem upperAlpha_head (c : Char) (h : upperAlpha c = true) : (c != ':') = true := by
  apply bne_iff_ne.mpr
  intro e
  subst e
  exact absurd h (by decide)

theorem headNotColon_slash (a : String) : headNotColon ("/" ++ a) = true := by
  unfold headNotColon
  rw [toList_append]
  rfl

theorem alnumUpper_head (c : Char) (h : alnumUpper c = true) : (c != ':') = true := by
  apply bne_iff_ne.mpr
  intro e
  subst e
  exact absurd h (by decide)

theorem string_length_toList (s : String) : s.length = s.toList.length := rfl

theorem ibanShaped_len (s : String) (h : ibanShaped s = true) : s.length ≤ 34 := by
  simp only [ibanShaped, Bool.and_eq_true, decide_eq_true_eq] at h
  rw [string_length_toList]
  exact h.1.1.1.2

theorem bicShape_facts (b : String) (hb : bicShape b = true) :
    tagOf b = none ∧ b.length ≤ 35 := by
  simp only [bicShape, Bool.and_eq_true, Bool.or_eq_true, beq_iff_eq] at hb
  obtain ⟨⟨hlen, _⟩, hall⟩ := hb
  constructor
  · apply tagOf_eq_none
    unfold headNotColon
    cases hbl : b.toList with
    | nil => rfl
    | cons c r =>
      have hm : c ∈ b.toList := by rw [hbl]; exact List.mem_cons_self c r
      exact alnumUpper_head c (List.all_eq_true.mp hall c hm)
  · rw [string_length_toList]
    rcases hlen with h | h <;> omega

theorem mtAmount_toList (a : Amount) : (mtAmount a).toList =
    natToDigits a.units ++ ',' :: (fracPadded a).map Nat.digitChar := rfl

theorem chunk35Aux_facts : ∀ (fuel : Nat) (cs : List Char),
    ∀ l ∈ chunk35Aux fuel cs, l ≠ [] ∧ l.length ≤ 35 ∧ ∀ c ∈ l, c ∈ cs := by
  intro fuel
  induction fuel with
  | zero => intro cs l hl; simp [chunk35Aux] at hl
  | succ f ih =>
    intro cs l hl
    cases cs with
    | nil => simp [chunk35Aux] at hl
    | cons c0 cs0 =>
      simp only [chunk35Aux] at hl
      rcases List.mem_cons.mp hl with h | h
      · subst h
        refine ⟨by simp, List.length_take_le _ _, fun c hc => List.take_subset _ _ hc⟩
      · have hf := ih _ l h
        exact ⟨hf.1, hf.2.1, fun c hc => List.drop_subset _ _ (hf.2.2 c hc)⟩

theorem wrapField_facts (s : String) (hs : s.toList.all displayChar = true) :
    ∀ l ∈ wrapField s, tagOf l = none ∧ l.length ≤ 35 := by
  intro l hl
  simp only [wrapField, List.mem_map] at hl
  obtain ⟨cs, hcs, rfl⟩ := hl
  have hcs2 : cs ∈ chunk35 s.toList := List.mem_of_mem_take hcs
  have hf := chunk35Aux_facts _ _ cs hcs2
  refine ⟨?_, ?_⟩
  · apply tagOf_eq_none
    cases hc : cs with
    | nil => exact absurd hc hf.1
    | cons c rest =>
      subst hc
      have hcm : c ∈ s.toList := hf.2.2 c (List.mem_cons_self c rest)
      exact displayChar_head c (List.all_eq_true.mp hs c hcm)
  · rw [String.length_mk]
    exact hf.2.1

theorem wrapIssues_eq_nil (ls : List String)
    (h : ∀ l ∈ ls, 35 < l.length →
      ∃ t, tagOf l = some t ∧ wrappedTags.contains t = false) :
    ∀ cur, wrapIssues cur ls = [] := by
  induction ls with
  | nil => intro cur; rfl
  | cons l ls ih =>
    intro cur
    have hl := h l (List.mem_cons_self l ls)
    have hrest : ∀ x ∈ ls, 35 < x.length →
        ∃ t, tagOf x = some t ∧ wrappedTags.contains t = false :=
      fun x hx => h x (List.mem_cons_of_mem l hx)
    have hcond : ∀ t, tagOf l = some t →
        (wrappedTags.contains t && decide (35 < l.length)) = false := by
      intro t ht
      by_cases hlen : 35 < l.length
      · obtain ⟨t2, ht2, hc2⟩ := hl hlen
        rw [ht] at ht2
        obtain rfl : t = t2 := Option.some.inj ht2
        rw [hc2, Bool.false_and]
      · rw [decide_eq_false hlen, Bool.and_false]
    have hnone : tagOf l = none → decide (35 < l.length) = false := by
      intro ht
      by_cases hlen : 35 < l.length
      · obtain ⟨t2, ht2, _⟩ := hl hlen
        rw [ht] at ht2
        exact absurd ht2 (fun hx => Option.noConfusion hx)
      · exact decide_eq_false hlen
    simp only [wrapIssues]
    rcases htag : tagOf l with _ | t
    · rcases cur with _ | t0
      · simpa using ih hrest none
      · simp [hnone htag, ih hrest (some t0)]
    · show ((if (wrappedTags.contains t && decide (35 < l.length)) = true
          then [lineTooLongMsg t] else []) ++ wrapIssues (some t) ls) = []
      rw [hcond t htag]
      simp [ih hrest (some t)]

theorem digitChar_isDigit (n : Nat) (h : n < 10) : (Nat.digitChar n).isDigit = true := by
  interval_cases n <;> decide

theorem digitChar_mod_isDigit (n : Nat) : (Nat.digitChar (n % 10)).isDigit = true :=
  digitChar_isDigit _ (Nat.mod_lt _ (by omega))

theorem natToDigitsAux_digits : ∀ (fuel n : Nat),
    ∀ c ∈ natToDigitsAux fuel n, c.isDigit = true := by
  intro fuel
  induction fuel with
  | zero => intro n c hc; simp [natToDigitsAux] at hc
  | succ f ih =>
    intro n c hc
    simp only [natToDigitsAux] at hc
    split at hc
    · next h =>
      simp only [List.mem_singleton] at hc
      subst hc
      exact digitChar_isDigit n h
    · next h =>
      rcases List.mem_append.mp hc with h1 | h1
      · exact ih _ c h1
      · simp only [List.mem_singleton] at h1
        subst h1
        exact digitChar_mod_isDigit n

theorem natToDigits_digits (n : Nat) : ∀ c ∈ natToDigits n, c.isDigit = true :=
  natToDigitsAux_digits (n + 1) n

theorem natToDigits_ne_nil (n : Nat) : natToDigits n ≠ [] := by
  unfold natToDigits
  simp only [natToDigitsAux]
  split <;> simp

theorem takeWhile_append_stop (p : Char → Bool) :
    ∀ (xs : List Char), (∀ x ∈ xs, p x = true) → ∀ (y : Char), p y = false →
    ∀ (ys : List Char),
    (xs ++ y :: ys).takeWhile p = xs ∧ (xs ++ y :: ys).dropWhile p = y :: ys := by
  intro xs
  induction xs with
  | nil =>
    intro _ y hy ys
    constructor <;> simp [List.takeWhile_cons, List.dropWhile_cons, hy]
  | cons x xs ih =>
    intro hall y hy ys
    have hx : p x = true := hall x (List.mem_cons_self x xs)
    have hr := ih (fun a ha => hall a (List.mem_cons_of_mem x ha)) y hy ys
    constructor
    · simp [List.takeWhile_cons, hx, hr.1]
    · simp [List.dropWhile_cons, hx, hr.2]

theorem fracPadded_ne_nil (a : Amount) : fracPadded a ≠ [] := by
  unfold fracPadded
  cases a.frac <;> simp [List.replicate]

theorem fracPadded_lt_ten (a : Amount) (ha : amountOK a = true) :
    ∀ d ∈ fracPadded a, d < 10 := by
  intro d hd
  simp only [amountOK, Bool.and_eq_true] at ha
  unfold fracPadded at hd
  rcases List.mem_append.mp hd with h | h
  · exact of_decide_eq_true (List.all_eq_true.mp ha.1 d h)
  · rw [List.eq_of_mem_replicate h]
    omega

theorem checkAmt_mtAmount (a : Amount) (ha : amountOK a = true) :
    checkAmt (natToDigits a.units ++ ',' :: (fracPadded a).map Nat.digitChar) = true := by
  have hstep := takeWhile_append_stop (fun c => c.isDigit) (natToDigits a.units)
    (fun x hx => natToDigits_digits a.units x hx) ',' (by decide)
    ((fracPadded a).map Nat.digitChar)
  have h1 : (natToDigits a.units).isEmpty = false :=
    List.isEmpty_eq_false.mpr (natToDigits_ne_nil a.units)
  have h2 : ((fracPadded a).map Nat.digitChar).isEmpty = false :=
    List.isEmpty_eq_false.mpr (by simpa using fracPadded_ne_nil a)
  have h3 : ((fracPadded a).map Nat.digitChar).all (fun d => d.isDigit) = true := by
    apply List.all_eq_true.mpr
    intro c hc
    obtain ⟨d, hd, rfl⟩ := List.mem_map.mp hc
    exact digitChar_isDigit d (fracPadded_lt_ten a ha d hd)
  simp [checkAmt, hstep.1, hstep.2, h1, h2, h3]

theorem check32A_generated (cur : String) (d : Date) (a : Amount)
    (hcur : currencyOK cur = true) (ham : amountOK a = true) :
    check32A ((":32A:" ++ (String.mk (yymmdd d) ++ (cur ++ mtAmount a))).toList.drop 5)
      = true := by
  simp only [currencyOK, Bool.and_eq_true, beq_iff_eq] at hcur
  obtain ⟨c1, c2, c3, hc3⟩ : ∃ x y z, cur.toList = [x, y, z] :=
    List.length_eq_three.mp hcur.1
  have hup : ∀ c ∈ cur.toList, upperAlpha c = true := List.all_eq_true.mp hcur.2
  have hu1 := hup c1 (by rw [hc3]; simp)
  have hu2 := hup c2 (by rw [hc3]; simp)
  have hu3 := hup c3 (by rw [hc3]; simp)
  have hts : (":32A:" ++ (String.mk (yymmdd d) ++ (cur ++ mtAmount a))).toList.drop 5 =
      yymmdd d ++ (cur.toList ++ (mtAmount a).toList) := by
    rw [toList_append, toList_append, toList_append]
    rfl
  rw [hts, hc3, mtAmount_toList]
  simp only [yymmdd, pad2, List.cons_append, List.nil_append, List.append_assoc]
  simp only [check32A, Bool.and_eq_true]
  exact ⟨⟨⟨⟨⟨⟨⟨⟨⟨digitChar_mod_isDigit _, digitChar_mod_isDigit _⟩,
    digitChar_mod_isDigit _⟩, digitChar_mod_isDigit _⟩, digitChar_mod_isDigit _⟩,
    digitChar_mod_isDigit _⟩, hu1⟩, hu2⟩, hu3⟩, checkAmt_mtAmount a ham⟩

/-! ## Claim theorems -/

/-- Claim C1: for every composed message, a transport (save, SMTP send, SFTP
upload, mock log) is never invoked while the last stored validation result is
invalid unless the user first explicitly confirms an override; if the user
declines, no transport action runs and no output is produced.  Stated for
both the PyQt `on_send` handler and the Streamlit `btn_send_mock` branch. -/
theorem send_gate_requires_validity_or_override :
    (∀ (s : QtState) (env : QtSendEnv),
      s.last_validation_result.1 = false → env.overrideAnswerYes = false →
      on_send s env = none) ∧
    (∀ (s : QtState) (env : QtSendEnv) (a : QtTransport),
      on_send s env = some a →
      s.last_validation_result.1 = true ∨ env.overrideAnswerYes = true) ∧
    (∀ (s : StState) (env : StSendEnv),
      s.validation_result.1 = false → env.overrideChecked = false →
      btn_send_mock s env = none) ∧
    (∀ (s : StState) (env : StSendEnv) (a : StTransport),
      btn_send_mock s env = some a →
      s.validation_result.1 = true ∨ env.overrideChecked = true) := by
  refine ⟨?_, ?_, ?_, ?_⟩
  · intro s env h1 h2
    simp [on_send, h1, h2]
  · intro s env a h
    by_cases hv : s.last_validation_result.1
    · exact Or.inl hv
    · by_cases ho : env.overrideAnswerYes
      · exact Or.inr ho
      · exfalso
        have hv2 : s.last_validation_result.1 = false := by simpa using hv
        have ho2 : env.overrideAnswerYes = false := by simpa using ho
        have hnone : on_send s env = none := by simp [on_send, hv2, ho2]
        rw [hnone] at h
        exact Option.noConfusion h
  · intro s env h1 h2
    simp [btn_send_mock, h1, h2]
  · intro s env a h
    by_cases hv : s.validation_result.1
    · exact Or.inl hv
    · by_cases ho : env.overrideChecked
      · exact Or.inr ho
      · exfalso
        have hv2 : s.validation_result.1 = false := by simpa using hv
        have ho2 : env.overrideChecked = false := by simpa using ho
        have hnone : btn_send_mock s env = none := by simp [btn_send_mock, hv2, ho2]
        rw [hnone] at h
        exact Option.noConfusion h

/-- Witness for claim C1: a concrete invalid state with a declined override
produces no transport action in either application. -/
theorem send_gate_requires_validity_or_override_witness :
    on_send ⟨none, (false, []), "MSG", "", ""⟩
      ⟨false, some .mockLog, none, false, false, false⟩ = none ∧
    btn_send_mock ⟨none, none, "MSG", (false, []), some .mt⟩
      ⟨false, .logLocal, false, false, false⟩ = none :=
  ⟨send_gate_requires_validity_or_override.1 _ _ rfl rfl,
   send_gate_requires_validity_or_override.2.2.1 _ _ rfl rfl⟩

/-- Claim C2: for every valid Payment, the MT103 generator output contains
each mandatory tag exactly once, in the fixed order of spec section 4.2 (the
first conjunct gives the whole tag-line sequence, with `:70:` present exactly
when remittance text is), and the MT103 validator run on that exact output
returns valid with an empty issue list. -/
theorem mt103_roundtrip (p : Payment) (hv : validPayment p = true) :
    (generate_mt103 p).filterMap tagOf =
      [":20:", ":23B:", ":32A:", ":50K:", ":59:"] ++
      opt70 p.remittance_info ++ [":71A:"] ∧
    (∀ t ∈ mandatoryTags, ((generate_mt103 p).filterMap tagOf).count t = 1) ∧
    isOrderedSub ((generate_mt103 p).filterMap tagOf) mt103Tags = true ∧
    validate_mt103_text (generate_mt103 p) = (true, []) := by
  simp only [validPayment, Bool.and_eq_true] at hv
  obtain ⟨⟨⟨⟨⟨⟨⟨⟨⟨hoa, hon⟩, hba⟩, hbn⟩, hbic⟩, ham⟩, hcur⟩, hdate⟩, hrem⟩, href⟩ := hv
  simp only [displayString, Bool.and_eq_true] at hon hbn
  have h20 : tagOf (":20:" ++ p.reference) = some ":20:" := tagOf_ref_line _
  have h23 : tagOf ":23B:CRED" = some ":23B:" := by decide
  have h50 : tagOf ":50K:" = some ":50K:" := by decide
  have h59 : tagOf ":59:" = some ":59:" := by decide
  have h70 : tagOf ":70:" = some ":70:" := by decide
  have h71 : tagOf ":71A:OUR" = some ":71A:" := by decide
  have h32 : tagOf (":32A:" ++ String.mk (yymmdd p.value_date) ++ p.currency ++
      mtAmount p.amount) = some ":32A:" := by
    rw [String.append_assoc, String.append_assoc]
    exact tagOf_32A_line _
  have hchk : check32A ((":32A:" ++ String.mk (yymmdd p.value_date) ++ p.currency ++
      mtAmount p.amount).toList.drop 5) = true := by
    rw [String.append_assoc, String.append_assoc]
    exact check32A_generated p.currency p.value_date p.amount hcur ham
  have hoaL : tagOf ("/" ++ p.ordering_account) = none :=
    tagOf_eq_none _ (headNotColon_slash _)
  have hbaL : tagOf ("/" ++ p.beneficiary_account) = none :=
    tagOf_eq_none _ (headNotColon_slash _)
  have hW1 : ∀ l ∈ wrapField p.ordering_name, tagOf l = none ∧ l.length ≤ 35 :=
    wrapField_facts _ hon.2
  have hW2 : ∀ l ∈ wrapField p.beneficiary_name, tagOf l = none ∧ l.length ≤ 35 :=
    wrapField_facts _ hbn.2
  have hB : ∀ l ∈ (match p.beneficiary_bic with
      | some b => [b]
      | none => ([] : List String)), tagOf l = none ∧ l.length ≤ 35 := by
    rcases hbo : p.beneficiary_bic with _ | b
    · intro l hl
      simp at hl
    · rw [hbo] at hbic
      intro l hl
      simp only [List.mem_singleton] at hl
      subst hl
      exact bicShape_facts l hbic
  have hR : ∀ l ∈ (match p.remittance_info with
      | none => ([] : List String)
      | some r => ":70:" :: wrapField r),
      l = ":70:" ∨ (tagOf l = none ∧ l.length ≤ 35) := by
    rcases hro : p.remittance_info with _ | r
    · intro l hl
      simp at hl
    · rw [hro] at hrem
      simp only [displayString, Bool.and_eq_true] at hrem
      intro l hl
      rcases List.mem_cons.mp hl with h | h
      · exact Or.inl h
      · exact Or.inr (wrapField_facts _ hrem.2 l h)
  have hW1n : (wrapField p.ordering_name).filterMap tagOf = [] :=
    List.filterMap_eq_nil_iff.mpr (fun l hl => (hW1 l hl).1)
  have hW2n : (wrapField p.beneficiary_name).filterMap tagOf = [] :=
    List.filterMap_eq_nil_iff.mpr (fun l hl => (hW2 l hl).1)
  have hBn : (match p.beneficiary_bic with
      | some b => [b]
      | none => ([] : List String)).filterMap tagOf = [] :=
    List.filterMap_eq_nil_iff.mpr (fun l hl => (hB l hl).1)
  have hRn : (match p.remittance_info with
      | none => ([] : List String)
      | some r => ":70:" :: wrapField r).filterMap tagOf =
      opt70 p.remittance_info := by
    rcases hro : p.remittance_info with _ | r
    · rfl
    · rw [hro] at hrem
      simp only [displayString, Bool.and_eq_true] at hrem
      have hwf : (wrapField r).filterMap tagOf = [] :=
        List.filterMap_eq_nil_iff.mpr
          (fun l hl => (wrapField_facts _ hrem.2 l hl).1)
      simp [List.filterMap_cons, h70, hwf, opt70]
  have hseq : (generate_mt103 p).filterMap tagOf =
      [":20:", ":23B:", ":32A:", ":50K:", ":59:"] ++
      opt70 p.remittance_info ++ [":71A:"] := by
    simp only [generate_mt103, List.filterMap_append]
    rw [hW1n, hW2n, hBn, hRn]
    simp [List.filterMap_cons, h20, h23, h32, h50, h59, h71, hoaL, hbaL]
  have hP : ∀ l ∈ generate_mt103 p, 35 < l.length →
      ∃ t, tagOf l = some t ∧ wrappedTags.contains t = false := by
    intro l hl
    simp only [generate_mt103, List.mem_append, List.mem_cons,
      List.not_mem_nil, or_false, or_assoc] at hl
    rcases hl with rfl | rfl | rfl | rfl | rfl | hl | rfl | hl | rfl | hl | hl | rfl
    · intro _
      exact ⟨":20:", h20, by decide⟩
    · intro hlen
      exact absurd hlen (by decide)
    · intro _
      exact ⟨":32A:", h32, by decide⟩
    · intro hlen
      exact absurd hlen (by decide)
    · intro hlen
      exfalso
      rw [String.length_append] at hlen
      have hx : ("/" : String).length = 1 := rfl
      have hy := ibanShaped_len _ hoa
      omega
    · intro hlen
      have := (hW1 l hl).2
      omega
    · intro hlen
      exact absurd hlen (by decide)
    · intro hlen
      have := (hB l hl).2
      omega
    · intro hlen
      exfalso
      rw [String.length_append] at hlen
      have hx : ("/" : String).length = 1 := rfl
      have hy := ibanShaped_len _ hba
      omega
    · intro hlen
      have := (hW2 l hl).2
      omega
    · rcases hR l hl with rfl | ⟨_, h2⟩
      · intro hlen
        exact absurd hlen (by decide)
      · intro hlen
        omega
    · intro hlen
      exact absurd hlen (by decide)
  have hwrap : wrapIssues none (generate_mt103 p) = [] :=
    wrapIssues_eq_nil _ hP none
  have hbad : (generate_mt103 p).filterMap (fun l =>
      if tagOf l == some ":32A:" then
        if check32A (l.toList.drop 5) then none
        else some "malformed :32A: value"
      else none) = [] := by
    apply List.filterMap_eq_nil_iff.mpr
    intro l hl
    simp only [generate_mt103, List.mem_append, List.mem_cons,
      List.not_mem_nil, or_false, or_assoc] at hl
    rcases hl with rfl | rfl | rfl | rfl | rfl | hl | rfl | hl | rfl | hl | hl | rfl
    · rw [h20]
      rfl
    · rfl
    · rw [h32, hchk]
      decide
    · rfl
    · rw [hoaL]
      rfl
    · rw [(hW1 l hl).1]
      rfl
    · rfl
    · rw [(hB l hl).1]
      rfl
    · rw [hbaL]
      rfl
    · rw [(hW2 l hl).1]
      rfl
    · rcases hR l hl with rfl | ⟨h1, _⟩
      · rfl
      · rw [h1]
        rfl
    · rfl
  refine ⟨hseq, ?_, ?_, ?_⟩
  · intro t ht
    rw [hseq]
    rcases p.remittance_info with _ | r <;> simp only [opt70] <;>
      fin_cases ht <;> decide
  · rw [hseq]
    rcases p.remittance_info with _ | r <;> simp only [opt70] <;> decide
  · simp only [validate_mt103_text]
    rw [hseq, hbad, hwrap]
    rcases p.remittance_info with _ | r <;> simp only [opt70] <;> rfl

/-- Witness for claim C2: the example payment of spec section 8 is valid and
its generated message round-trips through the validator. -/
theorem mt103_roundtrip_witness :
    validate_mt103_text (generate_mt103 examplePayment) = (true, []) :=
  (mt103_roundtrip examplePayment (by decide)).2.2.2

/-- Claim C3: whenever a pain.001 XML preview is generated and no schema
reference is configured, the caller stores a validation result with
`valid = false` and an explanatory issue — in the PyQt `on_generate` XML
branch and in the Streamlit `btn_generate` XML branch. -/
theorem no_schema_generate_sets_invalid :
    (∀ (s : QtState) (xml : String) (outcome : XmlValidateOutcome),
      s.schema_path = none →
      (on_generate_xml s xml outcome).last_validation_result =
        (false, ["No pain.001 XSD selected. Please select an XSD to validate."])) ∧
    (∀ (s : StState) (xml : String) (pathExists : String → Bool)
        (outcome : XmlValidateOutcome),
      s.schema_path = none →
      (btn_generate_xml s xml pathExists outcome).1.validation_result =
        (false, ["No schema uploaded for validation."])) := by
  constructor
  · intro s xml outcome h
    simp [on_generate_xml, h, set_validation_result]
  · intro s xml pathExists outcome h
    simp [btn_generate_xml, h]

/-- Witness for claim C3: a concrete state with no schema configured. -/
theorem no_schema_generate_sets_invalid_witness :
    (on_generate_xml ⟨none, (true, []), "", "", ""⟩ "<x/>"
        (.ok true [])).last_validation_result =
      (false, ["No pain.001 XSD selected. Please select an XSD to validate."]) ∧
    (btn_generate_xml ⟨none, none, "", (true, []), none⟩ "<x/>"
        (fun _ => true) (.ok true [])).1.validation_result =
      (false, ["No schema uploaded for validation."]) :=
  ⟨no_schema_generate_sets_invalid.1 _ _ _ rfl,
   no_schema_generate_sets_invalid.2 _ _ _ _ rfl⟩

/-- Claim C4: validating any XML input against a schema path the schema store
cannot resolve raises `SchemaNotFoundError` through the `Except` channel and
is never reported as a returned `valid = false` validation result. -/
theorem missing_schema_raises (store : String → Option (String → List String))
    (xml schemaPath : String) (h : store schemaPath = none) :
    validate_pain001_generated store xml schemaPath =
      .error { message := "pain.001 schema not found or unreadable: " ++ schemaPath } ∧
    ∀ r : Bool × List String,
      validate_pain001_generated store xml schemaPath ≠ .ok r := by
  constructor
  · simp [validate_pain001_generated, h]
  · intro r
    simp [validate_pain001_generated, h]

/-- Witness for claim C4: an empty schema store and a concrete document. -/
theorem missing_schema_raises_witness :
    validate_pain001_generated (fun _ => none) "<Document></Document>" "pain.001.xsd" =
      .error { message := "pain.001 schema not found or unreadable: pain.001.xsd" } :=
  (missing_schema_raises (fun _ => none) "<Document></Document>" "pain.001.xsd" rfl).1

/-- Claim C5: for the example payment of spec section 8, the MT103 output
contains the exact line `:32A:240601EUR1234,56` and a `:50K:` block starting
with the ordering account line followed by the ordering name, and the
pain.001 output contains the instructed-amount element with currency
attribute `EUR` and value `1234.56` and the end-to-end identifier `REF001`. -/
theorem example_payment_outputs :
    ":32A:240601EUR1234,56" ∈ generate_mt103 examplePayment ∧
    [":50K:", "/DE89370400440532013000", "Acme GmbH"] <:+:
      generate_mt103 examplePayment ∧
    strContains (generate_pain001 examplePayment)
      "<InstdAmt Ccy=\"EUR\">1234.56</InstdAmt>" = true ∧
    strContains (generate_pain001 examplePayment)
      "<EndToEndId>REF001</EndToEndId>" = true := by
  refine ⟨by decide, ?_, by decide, by decide⟩
  exact ⟨[":20:REF001", ":23B:CRED", ":32A:240601EUR1234,56"],
    [":59:", "/FR1420041010050500013M02606", "Globex SA", ":70:",
     "Invoice 123", ":71A:OUR"], by decide⟩

/-- Claim C6: building a Payment with amount `-5` raises `InputError`,
building with amount `abc` raises `InputError`, and building with a
4-character beneficiary BIC raises `InputError` at Payment-Model time; in
each failing case the builder returns only the error, so nothing is partially
constructed. -/
theorem builder_rejects_bad_inputs :
    payment_from_transaction "DE89370400440532013000" "Acme GmbH"
      "FR1420041010050500013M02606" "Globex SA" "-5" "EUR"
      (some "2024-06-01") (some "Invoice 123") none (some "REF001") =
      .error (.badAmount "-5") ∧
    payment_from_transaction "DE89370400440532013000" "Acme GmbH"
      "FR1420041010050500013M02606" "Globex SA" "abc" "EUR"
      (some "2024-06-01") (some "Invoice 123") none (some "REF001") =
      .error (.badAmount "abc") ∧
    payment_from_transaction "DE89370400440532013000" "Acme GmbH"
      "FR1420041010050500013M02606" "Globex SA" "10.00" "EUR"
      (some "2024-06-01") (some "Invoice 123") (some "ABCD") (some "REF001") =
      .error (.badBic "ABCD") := by
  refine ⟨by decide, by decide, by decide⟩

/-- Claim C7: in the PyQt GUI the class body binds `on_validate_clicked`
twice; by Python attribute semantics the later no-op binding wins, so the
`Validate Now` button leaves the stored validation result, the status label
and the issue list unchanged, while the shadowed first definition would have
updated the state. -/
theorem validate_button_is_noop :
    swiftGUIMethodNames.count "on_validate_clicked" = 2 ∧
    resolveMethod validateClickedBindings "on_validate_clicked" =
      some on_validate_clicked_v2 ∧
    (∀ (env : QtEnv) (s : QtState),
      (on_validate_clicked_v2 env s).last_validation_result =
        s.last_validation_result ∧
      (on_validate_clicked_v2 env s).validation_status_label =
        s.validation_status_label ∧
      (on_validate_clicked_v2 env s).validation_list = s.validation_list) ∧
    on_validate_clicked_v1 ⟨false, (true, []), .ok true []⟩
        ⟨none, (false, ["issue"]), "MSG", "", ""⟩ ≠
      ⟨none, (false, ["issue"]), "MSG", "", ""⟩ := by
  refine ⟨by decide, rfl, fun env s => ⟨rfl, rfl, rfl⟩, by decide⟩

/-- Claim C8 (counterexample): the currency input `" EUR "` is not blank,
yet the currency passed to the Payment builder is `"EUR"`, not the input
unchanged: the call sites strip surrounding whitespace. -/
theorem currency_passthrough_counterexample :
    pyStrip " EUR " ≠ "" ∧ collectCurrency " EUR " ≠ " EUR " := by
  refine ⟨by decide, by decide⟩

/-- Claim C8 (amended): for every Payment-building call, a blank (empty or
whitespace-only) currency input is replaced by `"USD"`, and a non-blank input
is passed through stripped of surrounding whitespace but otherwise
unchanged. -/
theorem currency_default_and_strip (raw : String) :
    (pyStrip raw = "" → collectCurrency raw = "USD") ∧
    (pyStrip raw ≠ "" → collectCurrency raw = pyStrip raw) := by
  constructor
  · intro h
    simp [collectCurrency, h]
  · intro h
    simp [collectCurrency, h]

/-- Witness for the amended claim C8: a blank and a padded input. -/
theorem currency_default_and_strip_witness :
    collectCurrency "  " = "USD" ∧ collectCurrency " EUR " = pyStrip " EUR " :=
  ⟨(currency_default_and_strip "  ").1 (by decide),
   (currency_default_and_strip " EUR ").2 (by decide)⟩

/-- Claim C9: in the Streamlit app, pressing `Validate Current Preview` for
an XML preview while the persisted schema path is unset or does not exist on
disk displays an error and returns the session state exactly as it was, so a
stale verdict from an earlier validation survives. -/
theorem stale_result_survives_missing_schema (s : StState)
    (pathExists : String → Bool) (xmlOutcome : XmlValidateOutcome)
    (mtOutcome : ValidationResult) (hc : s.preview_content ≠ "")
    (hf : s.last_format = some Fmt.xml)
    (hs : s.schema_path = none ∨
      ∃ sp, s.schema_path = some sp ∧ pathExists sp = false) :
    (btn_validate s pathExists xmlOutcome mtOutcome).1 = s ∧
    (btn_validate s pathExists xmlOutcome mtOutcome).2 =
      [.errorMsg "No persisted schema. Upload a pain.001 XSD on the left to validate XML."] := by
  rcases hs with h | ⟨sp, hsp, hex⟩
  · constructor <;> simp [btn_validate, hc, hf, h]
  · constructor <;> simp [btn_validate, hc, hf, hsp, hex]

/-- Witness for claim C9: a concrete session with a stale valid verdict and a
schema path that does not exist on disk. -/
theorem stale_result_survives_missing_schema_witness :
    (btn_validate ⟨some "gone.xsd", none, "<x/>", (true, []), some Fmt.xml⟩
        (fun _ => false) (.ok false ["later issue"]) (false, [])).1 =
      ⟨some "gone.xsd", none, "<x/>", (true, []), some Fmt.xml⟩ :=
  (stale_result_survives_missing_schema _ _ _ _ (by decide) rfl
    (Or.inr ⟨"gone.xsd", rfl, rfl⟩)).1

/-- Claim C10: every configuration persist in the Streamlit app writes both
keys — the schema handlers save the new schema path together with the current
logo path, and the logo handler saves the new logo path together with the
current schema path — so persisting one setting never clears the other. -/
theorem save_config_writes_both_keys (s : StState) (target schemasDir sel : String) :
    (uploaded_xsd_handler s target).2 =
      { schema_path := some target, logo_path := s.logo_path } ∧
    (schema_selectbox_handler s schemasDir sel).2 =
      { schema_path := some (schemasDir ++ "/" ++ sel), logo_path := s.logo_path } ∧
    (logo_upload_handler s target).2 =
      { schema_path := s.schema_path, logo_path := some target } :=
  ⟨rfl, rfl, rfl⟩

end SwiftVer
